import Mathlib

/-!
Verification of the goque type-tagging protocol (`file.go`).

The Go source has two functions:

* `checkGoqueType(dataDir string, gt goqueType) (bool, error)` — reads the
  one-byte `GOQUE` marker of a data directory, or creates it atomically
  (temp file, write, fsync, close, rename, directory sync) on first use,
  and evaluates variant compatibility.
* `syncDir(path string) error` — fsyncs a directory, treating the three
  EINVAL-shaped error values as success.

The embedding models the directory as the contents of the two files the
code touches (`GOQUE` and `GOQUE.tmp`), and every fallible OS primitive as
an operation whose failure is chosen by a fault-injection environment
`FsEnv` (`none` = the primitive succeeds).  Each successful state-changing
primitive appends an event to a trace, which lets us state the ordering
and atomicity claims.  Bytes are `Nat` values; the Go `uint8` argument is
reduced `% 256` at the function boundary, mirroring the `byte(gt)`
conversion and `uint8` comparisons.
-/

namespace Goque

/-- Error values, carrying exactly the structure the Go code inspects:
`os.IsNotExist` (ENOENT inside a `*os.PathError` / `*os.SyscallError`),
equality with `os.ErrInvalid`, and `syscall.EINVAL` unwrapped from a
`*os.SyscallError` or `*os.PathError`.  `eof` models `io.EOF` from a read
of an empty file; `other` is any further distinguishable error value. -/
inductive GoError where
  | errInvalid : GoError
  | syscallError : Nat → GoError
  | pathError : Nat → GoError
  | eof : GoError
  | other : Nat → GoError
deriving DecidableEq

/-- errno ENOENT, "no such file or directory". -/
def ENOENT : Nat := 2

/-- errno EINVAL, "invalid argument". -/
def EINVAL : Nat := 22

/-- Model of `os.IsNotExist(err)`: true exactly for an ENOENT carried in a
path or syscall error; false on `nil`. -/
def isNotExist : Option GoError → Bool
  | some (GoError.syscallError e) => e == ENOENT
  | some (GoError.pathError e) => e == ENOENT
  | _ => false

/-- The three error shapes `syncDir` swallows: `err == os.ErrInvalid`, a
`*os.SyscallError` wrapping `syscall.EINVAL` (Go < 1.8), and a
`*os.PathError` wrapping `syscall.EINVAL` (Go >= 1.8). -/
def isIgnorableSyncErr : GoError → Bool
  | GoError.errInvalid => true
  | GoError.syscallError e => e == EINVAL
  | GoError.pathError e => e == EINVAL
  | _ => false

/-- Embedding of `syncDir`, parameterised by the outcome of its two
fallible primitives: `os.Open(path)` and `f.Sync()` on the directory
handle (`none` = success).  The deferred `f.Close()` has its error
ignored by the Go code and no effect on the result. -/
def syncDir (openErr : Option GoError) (syncErr : Option GoError) : Option GoError :=
  match openErr with
  | some e => some e
  | none =>
    match syncErr with
    | some e => if isIgnorableSyncErr e then none else some e
    | none => none

/-- The goque variant tags (`goqueType` constants). -/
def goqueStack : Nat := 0

/-- Tag of the queue variant. -/
def goqueQueue : Nat := 1

/-- Tag of the priority-queue variant. -/
def goquePriorityQueue : Nat := 2

/-- Tag of the prefix-queue variant. -/
def goquePrefixQueue : Nat := 3

/-- The contents of the two files of the data directory that the code
touches: `dataDir/GOQUE` and `dataDir/GOQUE.tmp`.  `none` means the file
does not exist; `some l` means it exists with byte contents `l`. -/
structure DirState where
  goque : Option (List Nat)
  goqueTmp : Option (List Nat)
deriving DecidableEq

/-- Fault injection for each fallible OS primitive that `checkGoqueType`
invokes, in source order (`none` = that call succeeds).  A fault on the
read-only open of `GOQUE` only applies when the file exists; an absent
file deterministically yields ENOENT. -/
structure FsEnv where
  openMarkerInj : Option GoError
  readInj : Option GoError
  openTmpInj : Option GoError
  writeInj : Option GoError
  fsyncInj : Option GoError
  closeInj : Option GoError
  renameInj : Option GoError
  dirOpenInj : Option GoError
  dirSyncInj : Option GoError
deriving DecidableEq

/-- The fault-free environment: every OS primitive succeeds. -/
def FsEnv.ok : FsEnv := ⟨none, none, none, none, none, none, none, none, none⟩

/-- Observable filesystem effects, recorded when the corresponding
primitive succeeds. -/
inductive FsEvent where
  | openMarker : FsEvent
  | readMarker : FsEvent
  | openTmp : FsEvent
  | writeTmp : Nat → FsEvent
  | fsyncTmp : FsEvent
  | closeTmp : FsEvent
  | renameTmpToMarker : FsEvent
  | syncDataDir : FsEvent
deriving DecidableEq

/-- Result of one `checkGoqueType` call: the returned pair, the directory
state after the call, and the trace of successful filesystem effects. -/
structure FsOutcome where
  compatible : Bool
  error : Option GoError
  state : DirState
  trace : List FsEvent
deriving DecidableEq

/-- Outcome of `os.OpenFile(dataDir/GOQUE, os.O_RDONLY, 0)`: an absent
file fails with ENOENT; an existing file succeeds unless a fault is
injected. -/
def openMarkerResult (st : DirState) (env : FsEnv) : Option GoError :=
  match st.goque with
  | none => some (GoError.pathError ENOENT)
  | some _ => env.openMarkerInj

/-- Embedding of `checkGoqueType(dataDir, gt)`.  The branch structure
mirrors the Go source: first `os.IsNotExist(err)` selects the creation
path (temp file `GOQUE.tmp` opened `O_RDWR|O_CREATE` — existing contents
are kept, not truncated; write of `byte(gt)` at offset 0; `f.Sync()`;
`f.Close()`; `os.Rename` onto `GOQUE`, replacing any target; `syncDir`),
then any other open error is returned, then the read path reads one byte
and compares tags.  On the read path `st.goque` is necessarily `some`
(otherwise the open failed with ENOENT), so `getD []` is never the
default there; an empty existing file makes `f.Read` fail with `io.EOF`. -/
def checkGoqueType (st : DirState) (env : FsEnv) (gt : Nat) : FsOutcome :=
  let gtb := gt % 256
  let openErr := openMarkerResult st env
  if isNotExist openErr then
    match env.openTmpInj with
    | some e => ⟨false, some e, st, []⟩
    | none =>
      match env.writeInj with
      | some e =>
        ⟨false, some e, ⟨st.goque, some (st.goqueTmp.getD [])⟩, [FsEvent.openTmp]⟩
      | none =>
        match env.fsyncInj with
        | some e =>
          ⟨false, some e, ⟨st.goque, some (gtb :: (st.goqueTmp.getD []).drop 1)⟩,
            [FsEvent.openTmp, FsEvent.writeTmp gtb]⟩
        | none =>
          match env.closeInj with
          | some e =>
            ⟨false, some e, ⟨st.goque, some (gtb :: (st.goqueTmp.getD []).drop 1)⟩,
              [FsEvent.openTmp, FsEvent.writeTmp gtb, FsEvent.fsyncTmp]⟩
          | none =>
            match env.renameInj with
            | some e =>
              ⟨false, some e, ⟨st.goque, some (gtb :: (st.goqueTmp.getD []).drop 1)⟩,
                [FsEvent.openTmp, FsEvent.writeTmp gtb, FsEvent.fsyncTmp, FsEvent.closeTmp]⟩
            | none =>
              match syncDir env.dirOpenInj env.dirSyncInj with
              | some e =>
                ⟨false, some e, ⟨some (gtb :: (st.goqueTmp.getD []).drop 1), none⟩,
                  [FsEvent.openTmp, FsEvent.writeTmp gtb, FsEvent.fsyncTmp, FsEvent.closeTmp,
                    FsEvent.renameTmpToMarker]⟩
              | none =>
                ⟨true, none, ⟨some (gtb :: (st.goqueTmp.getD []).drop 1), none⟩,
                  [FsEvent.openTmp, FsEvent.writeTmp gtb, FsEvent.fsyncTmp, FsEvent.closeTmp,
                    FsEvent.renameTmpToMarker, FsEvent.syncDataDir]⟩
  else
    match openErr with
    | some e => ⟨false, some e, st, []⟩
    | none =>
      match env.readInj with
      | some e => ⟨false, some e, st, [FsEvent.openMarker]⟩
      | none =>
        match st.goque.getD [] with
        | [] => ⟨false, some GoError.eof, st, [FsEvent.openMarker, FsEvent.readMarker]⟩
        | filegt :: _ =>
          if filegt = gtb then
            ⟨true, none, st, [FsEvent.openMarker, FsEvent.readMarker]⟩
          else if filegt = goqueStack ∧ gtb = goqueQueue then
            ⟨true, none, st, [FsEvent.openMarker, FsEvent.readMarker]⟩
          else if filegt = goqueQueue ∧ gtb = goqueStack then
            ⟨true, none, st, [FsEvent.openMarker, FsEvent.readMarker]⟩
          else
            ⟨false, none, st, [FsEvent.openMarker, FsEvent.readMarker]⟩

/-- The sequence of effects of a fully successful creation path. -/
def creationTrace (gt : Nat) : List FsEvent :=
  [FsEvent.openTmp, FsEvent.writeTmp (gt % 256), FsEvent.fsyncTmp, FsEvent.closeTmp,
    FsEvent.renameTmpToMarker, FsEvent.syncDataDir]

example : checkGoqueType ⟨some [0], none⟩ FsEnv.ok 1 =
    ⟨true, none, ⟨some [0], none⟩, [FsEvent.openMarker, FsEvent.readMarker]⟩ := rfl

example : checkGoqueType ⟨some [2], none⟩ FsEnv.ok 1 =
    ⟨false, none, ⟨some [2], none⟩, [FsEvent.openMarker, FsEvent.readMarker]⟩ := rfl

example : checkGoqueType ⟨none, none⟩ FsEnv.ok 2 =
    ⟨true, none, ⟨some [2], none⟩, creationTrace 2⟩ := rfl

/-- C1: for a directory whose marker holds a valid tag `A` and any requested
variant `B` among the four defined variants, a fault-free `checkGoqueType`
returns `(true, nil)` exactly when `A = B` or `{A, B} = {STACK, QUEUE}`,
and `(false, nil)` on every other pair; the state is untouched. -/
theorem checkGoqueType_compat_table (A B : Nat) (st : DirState) (env : FsEnv)
    (hA : A = 0 ∨ A = 1 ∨ A = 2 ∨ A = 3) (hB : B = 0 ∨ B = 1 ∨ B = 2 ∨ B = 3)
    (hm : st.goque = some [A])
    (hopen : env.openMarkerInj = none) (hread : env.readInj = none) :
    checkGoqueType st env B =
      ⟨decide (A = B ∨ (A = 0 ∧ B = 1) ∨ (A = 1 ∧ B = 0)), none, st,
        [FsEvent.openMarker, FsEvent.readMarker]⟩ := by
  rcases hA with hA | hA | hA | hA <;> rcases hB with hB | hB | hB | hB <;>
    subst hA hB <;>
    simp [checkGoqueType, openMarkerResult, isNotExist, hm, hopen, hread,
      goqueStack, goqueQueue]

theorem checkGoqueType_compat_table_witness :
    checkGoqueType ⟨some [0], none⟩ FsEnv.ok 1 =
      ⟨true, none, ⟨some [0], none⟩, [FsEvent.openMarker, FsEvent.readMarker]⟩ := by
  have h := checkGoqueType_compat_table 0 1 ⟨some [0], none⟩ FsEnv.ok
    (Or.inl rfl) (Or.inr (Or.inl rfl)) rfl rfl rfl
  simpa using h

/-- C4: `syncDir` returns success exactly when the directory flush
completed, or the flush reported one of the "unsupported on a directory"
(EINVAL-shaped) errors; any other error, from opening the path or from the
flush, is returned to the caller as-is. -/
theorem syncDir_success_iff (oe se : Option GoError) :
    (syncDir oe se = none ↔
      oe = none ∧ (se = none ∨ ∃ e, se = some e ∧ isIgnorableSyncErr e = true))
    ∧ (∀ e, oe = some e → syncDir oe se = some e)
    ∧ (∀ e, oe = none → se = some e → isIgnorableSyncErr e = false →
        syncDir oe se = some e) := by
  refine ⟨?_, ?_, ?_⟩
  · cases oe with
    | some e => simp [syncDir]
    | none =>
      cases se with
      | none => simp [syncDir]
      | some e =>
        simp only [syncDir]
        split <;> simp_all
  · intro e h
    subst h
    rfl
  · intro e h1 h2 h3
    subst h1
    subst h2
    simp [syncDir, h3]

theorem syncDir_success_iff_witness :
    syncDir (some (GoError.other 5)) none = some (GoError.other 5) :=
  (syncDir_success_iff (some (GoError.other 5)) none).2.1 (GoError.other 5) rfl

/-- C6: `checkGoqueType` reports `compatible = true` only together with a
nil error: whenever the returned error is non-nil, the boolean is false. -/
theorem checkGoqueType_true_only_with_nil_error (st : DirState) (env : FsEnv) (gt : Nat) :
    (checkGoqueType st env gt).error = none ∨
      (checkGoqueType st env gt).compatible = false := by
  unfold checkGoqueType
  dsimp only
  repeat' split
  all_goals simp

/-- Helper: a list of length at most one loses everything when one element
is dropped. -/
theorem drop_one_of_len_le_one (l : List Nat) (h : l.length ≤ 1) : l.drop 1 = [] := by
  cases l with
  | nil => rfl
  | cons a t =>
    cases t with
    | nil => rfl
    | cons b t' => simp at h

/-- Helper: a fault-free call on a directory without a marker (and with any
stale temp file of at most one byte) takes the whole creation path and
installs `[v % 256]` as the marker. -/
theorem checkGoqueType_ok_fresh (st : DirState) (v : Nat)
    (hfresh : st.goque = none) (htmp : (st.goqueTmp.getD []).length ≤ 1) :
    checkGoqueType st FsEnv.ok v =
      ⟨true, none, ⟨some [v % 256], none⟩, creationTrace v⟩ := by
  have hdrop : (st.goqueTmp.getD []).drop 1 = [] := drop_one_of_len_le_one _ htmp
  simp [checkGoqueType, openMarkerResult, isNotExist, FsEnv.ok, syncDir, creationTrace,
    hfresh, hdrop, ENOENT]

/-- C2: for a directory with no existing GOQUE marker (any stale temp file
holding at most the one byte this protocol ever writes), a successful
fault-free call with a defined variant `V` creates the marker containing
exactly the one byte `V` and returns `(true, nil)`. -/
theorem checkGoqueType_fresh_creates_marker (st : DirState) (V : Nat)
    (hV : V = 0 ∨ V = 1 ∨ V = 2 ∨ V = 3)
    (hfresh : st.goque = none) (htmp : (st.goqueTmp.getD []).length ≤ 1) :
    checkGoqueType st FsEnv.ok V = ⟨true, none, ⟨some [V], none⟩, creationTrace V⟩ := by
  have hv : V % 256 = V := Nat.mod_eq_of_lt (by rcases hV with h | h | h | h <;> omega)
  rw [checkGoqueType_ok_fresh st V hfresh htmp, hv]

theorem checkGoqueType_fresh_creates_marker_witness :
    checkGoqueType ⟨none, none⟩ FsEnv.ok 1 =
      ⟨true, none, ⟨some [1], none⟩, creationTrace 1⟩ :=
  checkGoqueType_fresh_creates_marker ⟨none, none⟩ 1 (Or.inr (Or.inl rfl)) rfl (by decide)

/-- C10: the creation path validates nothing: for every byte value `v` of
the uint8 variant argument, including values outside 0–3, a successful
fault-free call on a fresh directory writes exactly the raw byte `v` as
the marker and returns `(true, nil)`. -/
theorem checkGoqueType_no_variant_validation (st : DirState) (v : Nat)
    (hv : v < 256) (hfresh : st.goque = none)
    (htmp : (st.goqueTmp.getD []).length ≤ 1) :
    checkGoqueType st FsEnv.ok v = ⟨true, none, ⟨some [v], none⟩, creationTrace v⟩ := by
  have hv' : v % 256 = v := Nat.mod_eq_of_lt hv
  rw [checkGoqueType_ok_fresh st v hfresh htmp, hv']

theorem checkGoqueType_no_variant_validation_witness :
    checkGoqueType ⟨none, none⟩ FsEnv.ok 200 =
      ⟨true, none, ⟨some [200], none⟩, creationTrace 200⟩ :=
  checkGoqueType_no_variant_validation ⟨none, none⟩ 200 (by decide) rfl (by decide)

/-- C3 counterexample: a marker byte 4 decodes to no defined variant, yet
requesting the (equally undefined) goqueType value 4 is reported
compatible, so "never compatible for an undecoded tag, for every requested
variant value" fails when the requested uint8 value is itself out of
range. -/
theorem checkGoqueType_unknown_tag_cex :
    checkGoqueType ⟨some [4], none⟩ FsEnv.ok 4 =
      ⟨true, none, ⟨some [4], none⟩, [FsEvent.openMarker, FsEvent.readMarker]⟩ := rfl

/-- C3 amended: for every marker whose first byte is outside 0–3 and every
requested variant among the four defined ones, `checkGoqueType` never
reports compatible, under any fault injection whose marker-open fault is
not a not-found error. -/
theorem checkGoqueType_unknown_tag_incompatible (st : DirState) (env : FsEnv)
    (b B : Nat) (rest : List Nat)
    (hb : 4 ≤ b) (hb' : b < 256) (hB : B = 0 ∨ B = 1 ∨ B = 2 ∨ B = 3)
    (hm : st.goque = some (b :: rest))
    (hopen : isNotExist env.openMarkerInj = false) :
    (checkGoqueType st env B).compatible = false := by
  have hBlt : B < 4 := by rcases hB with h | h | h | h <;> omega
  have h4 : b ≠ goqueStack := by simp only [goqueStack]; omega
  have h5 : b ≠ goqueQueue := by simp only [goqueQueue]; omega
  cases h1 : env.openMarkerInj with
  | some e =>
    have hne : isNotExist (some e) = false := h1 ▸ hopen
    simp [checkGoqueType, openMarkerResult, hm, h1, hne]
  | none =>
    cases h2 : env.readInj with
    | some e => simp [checkGoqueType, openMarkerResult, isNotExist, hm, h1, h2]
    | none =>
      have h3 : ¬ b = B % 256 := by omega
      simp [checkGoqueType, openMarkerResult, isNotExist, hm, h1, h2, h3, h4, h5]

theorem checkGoqueType_unknown_tag_incompatible_witness :
    (checkGoqueType ⟨some [4], none⟩ FsEnv.ok 0).compatible = false :=
  checkGoqueType_unknown_tag_incompatible ⟨some [4], none⟩ FsEnv.ok 4 0 []
    (by decide) (by decide) (Or.inl rfl) rfl rfl

/-- Helper: whenever opening the marker does not report a true not-found
condition, the call leaves the directory state untouched. -/
theorem checkGoqueType_state_of_not_notfound (st : DirState) (env : FsEnv) (gt : Nat)
    (hne : isNotExist (openMarkerResult st env) = false) :
    (checkGoqueType st env gt).state = st := by
  simp only [checkGoqueType, hne]
  repeat' split
  all_goals simp_all

/-- C5: only a true not-found result from opening the marker selects the
creation path: any other open error is returned as a hard failure with the
directory unmodified and an empty effect trace, and whenever the open is
not a not-found the state is untouched. -/
theorem checkGoqueType_open_error_hard_failure (st : DirState) (env : FsEnv) (gt : Nat) :
    (∀ e, openMarkerResult st env = some e → isNotExist (some e) = false →
        checkGoqueType st env gt = ⟨false, some e, st, []⟩)
    ∧ (isNotExist (openMarkerResult st env) = false →
        (checkGoqueType st env gt).state = st) := by
  constructor
  · intro e he hne
    simp [checkGoqueType, he, hne]
  · intro hne
    exact checkGoqueType_state_of_not_notfound st env gt hne

theorem checkGoqueType_open_error_hard_failure_witness :
    checkGoqueType ⟨some [1], none⟩
        ⟨some (GoError.other 7), none, none, none, none, none, none, none, none⟩ 1 =
      ⟨false, some (GoError.other 7), ⟨some [1], none⟩, []⟩ :=
  (checkGoqueType_open_error_hard_failure ⟨some [1], none⟩
    ⟨some (GoError.other 7), none, none, none, none, none, none, none, none⟩ 1).1
    (GoError.other 7) rfl rfl

/-- C8: reopening a directory whose marker exists performs no filesystem
writes: the directory state is unchanged and the trace holds only the
read-side effects. -/
theorem checkGoqueType_reopen_no_writes (st : DirState) (env : FsEnv) (gt : Nat)
    (c : List Nat) (hm : st.goque = some c)
    (hopen : isNotExist env.openMarkerInj = false) :
    (checkGoqueType st env gt).state = st ∧
      (checkGoqueType st env gt).trace ⊆ [FsEvent.openMarker, FsEvent.readMarker] := by
  have hne : isNotExist (openMarkerResult st env) = false := by
    simp [openMarkerResult, hm, hopen]
  refine ⟨checkGoqueType_state_of_not_notfound st env gt hne, ?_⟩
  simp only [checkGoqueType, hne]
  repeat' split
  all_goals simp_all

theorem checkGoqueType_reopen_no_writes_witness :
    (checkGoqueType ⟨some [3], none⟩ FsEnv.ok 0).state = ⟨some [3], none⟩ ∧
      (checkGoqueType ⟨some [3], none⟩ FsEnv.ok 0).trace ⊆
        [FsEvent.openMarker, FsEvent.readMarker] :=
  checkGoqueType_reopen_no_writes ⟨some [3], none⟩ FsEnv.ok 0 [3] rfl rfl

/-- C7 counterexample: on a fresh directory, when every creation step up
to and including the rename succeeds and only the directory sync fails,
`checkGoqueType` returns the error even though the canonical GOQUE marker
was created (renamed into place) by this very call, contradicting "the
directory state has no file under the canonical GOQUE name created by
this call". -/
theorem checkGoqueType_dirsync_failure_cex :
    checkGoqueType ⟨none, none⟩
        ⟨none, none, none, none, none, none, none, some (GoError.other 7), none⟩ 1 =
      ⟨false, some (GoError.other 7), ⟨some [1], none⟩,
        [FsEvent.openTmp, FsEvent.writeTmp 1, FsEvent.fsyncTmp, FsEvent.closeTmp,
          FsEvent.renameTmpToMarker]⟩ := rfl

/-- C7 amended: if a creation-path step up to and including the rename
fails, the error is returned and no GOQUE file exists (at most a stale
GOQUE.tmp remains); if the rename succeeded and only the directory sync
fails, the error is returned while the complete renamed marker already
sits at the GOQUE name and no temp file remains. -/
theorem checkGoqueType_creation_failure_state (st : DirState) (env : FsEnv) (gt : Nat)
    (e : GoError) (hfresh : st.goque = none)
    (herr : (checkGoqueType st env gt).error = some e) :
    (FsEvent.renameTmpToMarker ∉ (checkGoqueType st env gt).trace ∧
        (checkGoqueType st env gt).state.goque = none)
    ∨ (FsEvent.renameTmpToMarker ∈ (checkGoqueType st env gt).trace ∧
        (checkGoqueType st env gt).state.goque =
          some ((gt % 256) :: (st.goqueTmp.getD []).drop 1) ∧
        (checkGoqueType st env gt).state.goqueTmp = none ∧
        syncDir env.dirOpenInj env.dirSyncInj = some e) := by
  cases h3 : env.openTmpInj <;> cases h4 : env.writeInj <;> cases h5 : env.fsyncInj <;>
    cases h6 : env.closeInj <;> cases h7 : env.renameInj <;>
    cases hs : syncDir env.dirOpenInj env.dirSyncInj <;>
    simp_all [checkGoqueType, openMarkerResult, isNotExist, ENOENT]

theorem checkGoqueType_creation_failure_state_witness :
    FsEvent.renameTmpToMarker ∈
        (checkGoqueType ⟨none, none⟩
          ⟨none, none, none, none, none, none, none, some (GoError.other 9), none⟩ 2).trace ∧
      (checkGoqueType ⟨none, none⟩
          ⟨none, none, none, none, none, none, none, some (GoError.other 9), none⟩ 2).state.goque =
        some [2] := by
  have h := checkGoqueType_creation_failure_state ⟨none, none⟩
    ⟨none, none, none, none, none, none, none, some (GoError.other 9), none⟩ 2
    (GoError.other 9) rfl rfl
  rcases h with ⟨hmem, _⟩ | ⟨hmem, hq, _, _⟩
  · exact absurd (by decide) hmem
  · exact ⟨hmem, hq⟩

/-- C9: within the creation path the successful effects happen strictly in
the order temp-open, write, fsync, close, rename, directory sync: every
run's trace is an initial segment of that sequence, and a run that returns
no error performs exactly all of it. -/
theorem checkGoqueType_creation_order (st : DirState) (env : FsEnv) (gt : Nat)
    (hfresh : st.goque = none) :
    ((checkGoqueType st env gt).trace =
        (creationTrace gt).take (checkGoqueType st env gt).trace.length)
    ∧ ((checkGoqueType st env gt).error = none →
        (checkGoqueType st env gt).trace = creationTrace gt) := by
  cases h3 : env.openTmpInj <;> cases h4 : env.writeInj <;> cases h5 : env.fsyncInj <;>
    cases h6 : env.closeInj <;> cases h7 : env.renameInj <;>
    cases hs : syncDir env.dirOpenInj env.dirSyncInj <;>
    simp_all [checkGoqueType, openMarkerResult, isNotExist, ENOENT, creationTrace]

theorem checkGoqueType_creation_order_witness :
    (checkGoqueType ⟨none, none⟩ FsEnv.ok 2).trace = creationTrace 2 :=
  (checkGoqueType_creation_order ⟨none, none⟩ FsEnv.ok 2 rfl).2 rfl

end Goque
